import Mathlib

set_option maxRecDepth 16384

/-!
Shallow embedding of `src/summary.py` (a Flask app that extracts a YouTube
video id from a URL, fetches the transcript from an external service, and
asks an external generative model for a summary), together with proofs of
the testable properties stated in the specification.

The two external services (the transcript API and the generative model) are
modelled as function parameters returning `Except String _`: `Except.ok`
models a normal return, `Except.error e` models the client raising an
exception whose Python `str(...)` form is `e` (which may be the empty
string, as for `Exception()`).
-!-/

namespace YTSummary

/-! ### A backtracking regex matcher, specialised to the shapes used by the
pattern in `extract_video_id`.

Python `re.search` scans start positions left to right and, at each
position, explores the pattern with leftmost-alternative-first,
greedy-longest-first and lazy-shortest-first backtracking.  The matcher
below is written in continuation-passing style: `some` from the
continuation commits the choice, `none` backtracks.  Every quantifier in
the source pattern ranges over a single character class, so the quantified
forms are specialised to character classes. -/

inductive RE where
  | cls (p : Char → Bool)
  | lits (s : List Char)
  | seq (a b : RE)
  | alt (a b : RE)
  | opt (a : RE)
  | plusCls (p : Char → Bool)
  | lazyStarCls (p : Char → Bool)

/-- Consume the literal character list `l` from the front of `cs`. -/
def dropLits : List Char → List Char → Option (List Char)
  | [], cs => some cs
  | _ :: _, [] => none
  | l :: ls, c :: cs => if c == l then dropLits ls cs else none

/-- Greedy Kleene star over a character class: try the longest run first,
then backtrack one character at a time. -/
def greedyStarK (p : Char → Bool) (k : List Char → Option (List Char)) :
    List Char → Option (List Char)
  | [] => k []
  | c :: cs =>
    if p c then
      match greedyStarK p k cs with
      | some r => some r
      | none => k (c :: cs)
    else k (c :: cs)

/-- Greedy `+` over a character class: one mandatory character, then a
greedy star. -/
def greedyPlusK (p : Char → Bool) (k : List Char → Option (List Char)) :
    List Char → Option (List Char)
  | [] => none
  | c :: cs => if p c then greedyStarK p k cs else none

/-- Lazy `*?` over a character class: try consuming nothing first, then
one more character at a time. -/
def lazyStarK (p : Char → Bool) (k : List Char → Option (List Char)) :
    List Char → Option (List Char)
  | [] => k []
  | c :: cs =>
    match k (c :: cs) with
    | some r => some r
    | none => if p c then lazyStarK p k cs else none

/-- Backtracking matcher: match `re` at the front of the input and hand the
rest to the continuation `k`; a `none` from `k` backtracks into `re`. -/
def reMatch : RE → (List Char → Option (List Char)) → List Char → Option (List Char)
  | .cls _, _, [] => none
  | .cls p, k, c :: cs => if p c then k cs else none
  | .lits s, k, cs =>
    match dropLits s cs with
    | some cs' => k cs'
    | none => none
  | .seq a b, k, cs => reMatch a (fun cs' => reMatch b k cs') cs
  | .alt a b, k, cs =>
    match reMatch a k cs with
    | some r => some r
    | none => reMatch b k cs
  | .opt a, k, cs =>
    match reMatch a k cs with
    | some r => some r
    | none => k cs
  | .plusCls p, k, cs => greedyPlusK p k cs
  | .lazyStarCls p, k, cs => lazyStarK p k cs

/-- Scan start positions from left to right, as `re.search` does (every
suffix of the input, the empty one included). -/
def reSearch (re : RE) (k : List Char → Option (List Char)) :
    List Char → Option (List Char)
  | [] => reMatch re k []
  | c :: cs =>
    match reMatch re k (c :: cs) with
    | some r => some r
    | none => reSearch re k cs

/-! ### The character classes of the pattern.

Python `\s` on `str` patterns also covers some non-ASCII whitespace; the
claims under verification only involve the ASCII range, which is modelled
exactly. -/

/-- ASCII whitespace, the `\s` class: space, tab, newline, carriage
return, vertical tab, form feed. -/
def isPySpace (c : Char) : Bool :=
  c == ' ' || c == '\t' || c == '\n' || c == '\x0d' || c == '\x0b' || c == '\x0c'

/-- The class `[^\/\n\s]`. -/
def notSlashNlSpace (c : Char) : Bool :=
  !(c == '/' || c == '\n' || isPySpace c)

/-- The class `\S`. -/
def notSpace (c : Char) : Bool := !(isPySpace c)

/-- The class `[?&]`. -/
def qAmp (c : Char) : Bool := c == '?' || c == '&'

/-- The class `[a-zA-Z0-9_-]` of video-id characters. -/
def idChar (c : Char) : Bool :=
  c.isAlpha || c.isDigit || c == '_' || c == '-'

/-- Literal regex node from a string. -/
def lits (s : String) : RE := RE.lits s.data

/-- The part of the pattern in `extract_video_id` that precedes the capture
group, transcribed node by node:
`(?:https?:\/\/)?(?:www\.)?(?:youtube\.com\/(?:[^\/\n\s]+\/\S+\/|(?:v|e(?:mbed)?)\/|\S*?[?&]v=)|youtu\.be\/)`. -/
def ytPattern : RE :=
  .seq (.opt (.seq (lits "http") (.seq (.opt (.cls (fun c => c == 's'))) (lits "://"))))
    (.seq (.opt (lits "www."))
      (.alt
        (.seq (lits "youtube.com/")
          (.alt
            (.seq (.plusCls notSlashNlSpace)
              (.seq (lits "/") (.seq (.plusCls notSpace) (lits "/"))))
            (.alt
              (.seq (.alt (lits "v") (.seq (lits "e") (.opt (lits "mbed")))) (lits "/"))
              (.seq (.lazyStarCls notSpace) (.seq (.cls qAmp) (lits "v="))))))
        (lits "youtu.be/")))

/-- The capture group `([a-zA-Z0-9_-]{11})` that ends the pattern: exactly
eleven id characters must follow; what comes after them is unconstrained. -/
def grab11 (cs : List Char) : Option (List Char) :=
  if (cs.take 11).length == 11 && (cs.take 11).all idChar then some (cs.take 11)
  else none

/-- `extract_video_id` from `src/summary.py`: `re.search` of the fixed
pattern against the URL, returning capture group 1, or `none` when there is
no match. -/
def extract_video_id (url : String) : Option String :=
  (reSearch ytPattern grab11 url.data).map (fun l => String.mk l)

/-! ### The two service calls and the `/summarize` handler. -/

/-- One caption entry returned by the transcript service: the dictionary
field `"text"` is the only one the code reads. -/
structure Entry where
  text : String
deriving DecidableEq

/-- `get_transcript` from `src/summary.py`.  `fetch` models
`YouTubeTranscriptApi.get_transcript`; on success the caption texts are
joined by single spaces (`" ".join(...)`), on an exception the pair
`(None, str(e))` is returned. -/
def get_transcript (fetch : String → Except String (List Entry))
    (video_id : String) : Option String × Option String :=
  match fetch video_id with
  | .ok transcript => (some (String.intercalate " " (transcript.map Entry.text)), none)
  | .error e => (none, some e)

/-- The fixed prefix of the summarisation prompt, exactly as in the
triple-quoted f-string of `generate_summary` (trailing space, newlines and
the 8-space indentation included). -/
def promptHeader : String :=
  "Please provide a concise summary of the following transcript. \n        Focus on the main points and key insights. Limit the summary to 3-4 paragraphs:\n\n        "

/-- Python string interpolation of an `Optional[str]`: `None` renders as
the four characters `None`. -/
def pyStrOf : Option String → String
  | none => "None"
  | some s => s

/-- `generate_summary` from `src/summary.py`.  `gen` models the Gemini
model call `model.generate_content(prompt).text`; any exception (model
construction included) yields `(None, str(e))`. -/
def generate_summary (gen : String → Except String String)
    (transcript : Option String) : Option String × Option String :=
  match gen (promptHeader ++ pyStrOf transcript) with
  | .ok t => (some t, none)
  | .error e => (none, some e)

/-- Python truthiness of the `Optional[str]` error slots: `None` and the
empty string are falsy, every other string is truthy.  The handler tests
`if transcript_error:` and `if summary_error:`, not `is not None`. -/
def truthy : Option String → Bool
  | none => false
  | some s => s != ""

/-- The JSON body built at each return site of the handler: either
`{"transcript": ..., "summary": ..., "status": "success"}` (the two values
are `Optional[str]`, `none` rendering as JSON null) or
`{"error": ..., "status": "error"}`. -/
inductive Resp where
  | success (transcript summary : Option String)
  | failure (error : String)
deriving DecidableEq

/-- The value of the `"status"` field of a response body. -/
def Resp.status : Resp → String
  | .success _ _ => "success"
  | .failure _ => "error"

/-- Instrumentation events recording each pipeline step the handler
actually runs: the regex parse of the URL, the transcript-service call,
and the generative-model call with the prompt it receives. -/
inductive Ev where
  | parseEv (url : String)
  | fetchEv (videoId : String)
  | genEv (prompt : String)
deriving DecidableEq

/-- Result of one run of the handler: response body, HTTP status code, and
the trace of pipeline steps that ran. -/
structure HandlerResult where
  resp : Resp
  code : Nat
  events : List Ev
deriving DecidableEq

/-- The message of the `TypeError` that `re.search` raises when handed
`None` instead of a string (the exact Python wording varies by version;
only its role as a caught exception string matters here). -/
def typeErrorMsg : String := "expected string or bytes-like object"

/-- The `/summarize` handler from `src/summary.py`.  `videoUrl` is
`request.json.get("videoUrl")`: `none` when the key is absent.  In that
case `extract_video_id(None)` raises a `TypeError` inside `re.search`,
which the catch-all `except` turns into a 500 response, so no pipeline
step completes.  Otherwise the handler runs parse, fetch, generate in
order, with the truthiness tests of the source on the two error slots. -/
def summarize (fetch : String → Except String (List Entry))
    (gen : String → Except String String) (videoUrl : Option String) :
    HandlerResult :=
  match videoUrl with
  | none => { resp := .failure typeErrorMsg, code := 500, events := [] }
  | some url =>
    match extract_video_id url with
    | none =>
      { resp := .failure "Invalid YouTube URL", code := 400
        events := [.parseEv url] }
    | some video_id =>
      let tr := get_transcript fetch video_id
      if truthy tr.2 then
        { resp := .failure ("Error retrieving transcript: " ++ tr.2.getD "")
          code := 500, events := [.parseEv url, .fetchEv video_id] }
      else
        let sm := generate_summary gen tr.1
        if truthy sm.2 then
          { resp := .failure ("Error generating summary: " ++ sm.2.getD "")
            code := 500
            events := [.parseEv url, .fetchEv video_id,
                       .genEv (promptHeader ++ pyStrOf tr.1)] }
        else
          { resp := .success tr.1 sm.1, code := 200
            events := [.parseEv url, .fetchEv video_id,
                       .genEv (promptHeader ++ pyStrOf tr.1)] }

/-! ### Lemmas: every value a matcher run returns was produced by its
continuation.  This is what ties any successful `re.search` result to the
capture group at the end of the pattern. -/

theorem grab11_shape {cs r : List Char} (h : grab11 cs = some r) :
    r.length = 11 ∧ r.all idChar = true := by
  unfold grab11 at h
  split at h
  · rename_i hcond
    cases h
    rw [Bool.and_eq_true] at hcond
    exact ⟨by simpa using hcond.1, hcond.2⟩
  · cases h

theorem greedyStarK_some (p : Char → Bool) (k : List Char → Option (List Char)) :
    ∀ cs r, greedyStarK p k cs = some r → ∃ cs', k cs' = some r := by
  intro cs
  induction cs with
  | nil => intro r h; exact ⟨[], h⟩
  | cons c cs ih =>
    intro r h
    simp only [greedyStarK] at h
    by_cases hp : p c = true
    · rw [if_pos hp] at h
      cases hg : greedyStarK p k cs with
      | some x =>
        rw [hg] at h
        cases h
        exact ih _ hg
      | none =>
        rw [hg] at h
        exact ⟨c :: cs, h⟩
    · rw [if_neg hp] at h
      exact ⟨c :: cs, h⟩

theorem greedyPlusK_some (p : Char → Bool) (k : List Char → Option (List Char)) :
    ∀ cs r, greedyPlusK p k cs = some r → ∃ cs', k cs' = some r := by
  intro cs r h
  cases cs with
  | nil => simp [greedyPlusK] at h
  | cons c cs =>
    simp only [greedyPlusK] at h
    by_cases hp : p c = true
    · rw [if_pos hp] at h
      exact greedyStarK_some p k cs r h
    · rw [if_neg hp] at h
      cases h

theorem lazyStarK_some (p : Char → Bool) (k : List Char → Option (List Char)) :
    ∀ cs r, lazyStarK p k cs = some r → ∃ cs', k cs' = some r := by
  intro cs
  induction cs with
  | nil => intro r h; exact ⟨[], h⟩
  | cons c cs ih =>
    intro r h
    simp only [lazyStarK] at h
    cases hk : k (c :: cs) with
    | some x =>
      rw [hk] at h
      cases h
      exact ⟨c :: cs, hk⟩
    | none =>
      rw [hk] at h
      by_cases hp : p c = true
      · rw [if_pos hp] at h
        exact ih r h
      · rw [if_neg hp] at h
        cases h

theorem reMatch_some :
    ∀ (re : RE) (k : List Char → Option (List Char)) (cs r : List Char),
      reMatch re k cs = some r → ∃ cs', k cs' = some r := by
  intro re
  induction re with
  | cls p =>
    intro k cs r h
    cases cs with
    | nil => simp [reMatch] at h
    | cons c cs =>
      simp only [reMatch] at h
      by_cases hp : p c = true
      · rw [if_pos hp] at h
        exact ⟨cs, h⟩
      · rw [if_neg hp] at h
        cases h
  | lits s =>
    intro k cs r h
    simp only [reMatch] at h
    cases hd : dropLits s cs with
    | some cs' =>
      rw [hd] at h
      exact ⟨cs', h⟩
    | none =>
      rw [hd] at h
      cases h
  | seq a b iha ihb =>
    intro k cs r h
    simp only [reMatch] at h
    obtain ⟨cs1, h1⟩ := iha _ cs r h
    exact ihb k cs1 r h1
  | alt a b iha ihb =>
    intro k cs r h
    simp only [reMatch] at h
    cases ha : reMatch a k cs with
    | some x =>
      rw [ha] at h
      cases h
      exact iha k cs _ ha
    | none =>
      rw [ha] at h
      exact ihb k cs r h
  | opt a iha =>
    intro k cs r h
    simp only [reMatch] at h
    cases ha : reMatch a k cs with
    | some x =>
      rw [ha] at h
      cases h
      exact iha k cs _ ha
    | none =>
      rw [ha] at h
      exact ⟨cs, h⟩
  | plusCls p =>
    intro k cs r h
    simp only [reMatch] at h
    exact greedyPlusK_some p k cs r h
  | lazyStarCls p =>
    intro k cs r h
    simp only [reMatch] at h
    exact lazyStarK_some p k cs r h

theorem reSearch_some (re : RE) (k : List Char → Option (List Char)) :
    ∀ cs r, reSearch re k cs = some r → ∃ cs', k cs' = some r := by
  intro cs
  induction cs with
  | nil =>
    intro r h
    simp only [reSearch] at h
    exact reMatch_some re k [] r h
  | cons c cs ih =>
    intro r h
    simp only [reSearch] at h
    cases hm : reMatch re k (c :: cs) with
    | some x =>
      rw [hm] at h
      cases h
      exact reMatch_some re k (c :: cs) _ hm
    | none =>
      rw [hm] at h
      exact ih r h

/-- C1: `extract_video_id` returns either `none` or the first match of the
fixed pattern (that is its definition); any returned id is a string of
exactly 11 characters, each a letter, digit, underscore or hyphen; a
string on which the pattern finds no match yields `none`. -/
theorem extract_video_id_returns_eleven_id_chars (url s : String)
    (h : extract_video_id url = some s) :
    s.length = 11 ∧ s.data.all idChar = true := by
  unfold extract_video_id at h
  cases hr : reSearch ytPattern grab11 url.data with
  | none =>
    rw [hr] at h
    cases h
  | some l =>
    rw [hr] at h
    simp only [Option.map] at h
    cases h
    obtain ⟨cs', hg⟩ := reSearch_some ytPattern grab11 url.data l hr
    have hs := grab11_shape hg
    exact ⟨hs.1, hs.2⟩

/-- Witness for C1 at the concrete URL of the specification example. -/
theorem extract_video_id_returns_eleven_id_chars_witness :
    ("dQw4w9WgXcQ" : String).length = 11 ∧
    ("dQw4w9WgXcQ" : String).data.all idChar = true :=
  extract_video_id_returns_eleven_id_chars "https://youtu.be/dQw4w9WgXcQ"
    "dQw4w9WgXcQ" (by decide)

/-- C7: on the input `https://youtu.be/dQw4w9WgXcQ` the extractor returns
the id `dQw4w9WgXcQ`. -/
theorem extract_video_id_example :
    extract_video_id "https://youtu.be/dQw4w9WgXcQ" = some "dQw4w9WgXcQ" := by
  decide

/-- C6: whenever the transcript service returns a list of caption entries,
`get_transcript` returns the entry texts joined by single spaces, paired
with `none` in the error slot. -/
theorem get_transcript_joins_texts (fetch : String → Except String (List Entry))
    (vid : String) (entries : List Entry) (h : fetch vid = .ok entries) :
    get_transcript fetch vid =
      (some (String.intercalate " " (entries.map Entry.text)), none) := by
  simp [get_transcript, h]

/-- Witness for C6: two concrete caption fragments join to `a b`. -/
theorem get_transcript_joins_texts_witness :
    get_transcript (fun _ => .ok [⟨"a"⟩, ⟨"b"⟩]) "vid" = (some "a b", none) :=
  (get_transcript_joins_texts (fun _ => .ok [⟨"a"⟩, ⟨"b"⟩]) "vid" [⟨"a"⟩, ⟨"b"⟩]
    rfl).trans (by decide)

/-- C2: a request whose URL the parser rejects gets HTTP 400 and an error
body, and the trace shows that neither the transcript service nor the
summariser ran. -/
theorem summarize_invalid_url_400 (fetch : String → Except String (List Entry))
    (gen : String → Except String String) (url : String)
    (h : extract_video_id url = none) :
    (summarize fetch gen (some url)).code = 400 ∧
    (summarize fetch gen (some url)).resp = .failure "Invalid YouTube URL" ∧
    (summarize fetch gen (some url)).resp.status = "error" ∧
    (summarize fetch gen (some url)).events = [.parseEv url] := by
  simp [summarize, h, Resp.status]

/-- Witness for C2 at a concrete unparseable URL. -/
theorem summarize_invalid_url_400_witness :
    (summarize (fun _ => .error "x") (fun _ => .ok "y") (some "notaurl")).code = 400 ∧
    (summarize (fun _ => .error "x") (fun _ => .ok "y") (some "notaurl")).resp =
      .failure "Invalid YouTube URL" ∧
    (summarize (fun _ => .error "x") (fun _ => .ok "y")
      (some "notaurl")).resp.status = "error" ∧
    (summarize (fun _ => .error "x") (fun _ => .ok "y") (some "notaurl")).events =
      [.parseEv "notaurl"] :=
  summarize_invalid_url_400 (fun _ => .error "x") (fun _ => .ok "y") "notaurl"
    (by decide)

/-- C3, counterexample to the unrestricted claim: when the transcript
client raises an exception whose string form is empty, the handler's
truthiness test `if transcript_error:` treats it as no error, so the
request does not get a 500 response at all (here it ends in 200/success
with a `None` transcript). -/
theorem summarize_empty_transcript_error_not_500 :
    (summarize (fun _ => .error "") (fun _ => .ok "A summary.")
      (some "https://youtu.be/dQw4w9WgXcQ")).code = 200 ∧
    (summarize (fun _ => .error "") (fun _ => .ok "A summary.")
      (some "https://youtu.be/dQw4w9WgXcQ")).resp =
      .success none (some "A summary.") := by
  constructor
  · decide
  · decide

/-- C3, amended: when the transcript client raises an exception whose
string form is non-empty, the response is HTTP 500 with `status` `error`
and an error message that carries the upstream failure text. -/
theorem summarize_transcript_error_500 (fetch : String → Except String (List Entry))
    (gen : String → Except String String) (url vid e : String)
    (h1 : extract_video_id url = some vid)
    (h2 : fetch vid = .error e) (h3 : e ≠ "") :
    (summarize fetch gen (some url)).code = 500 ∧
    (summarize fetch gen (some url)).resp =
      .failure ("Error retrieving transcript: " ++ e) ∧
    (summarize fetch gen (some url)).resp.status = "error" := by
  have htr : get_transcript fetch vid = (none, some e) := by
    simp [get_transcript, h2]
  have htruthy : truthy (some e) = true := by
    simp [truthy, bne_iff_ne, h3]
  simp [summarize, h1, htr, htruthy, Resp.status, Option.getD]

/-- Witness for the amended C3 with a concrete raising transcript client. -/
theorem summarize_transcript_error_500_witness :
    (summarize (fun _ => .error "boom") (fun _ => .ok "s")
      (some "https://youtu.be/dQw4w9WgXcQ")).code = 500 ∧
    (summarize (fun _ => .error "boom") (fun _ => .ok "s")
      (some "https://youtu.be/dQw4w9WgXcQ")).resp =
      .failure ("Error retrieving transcript: " ++ "boom") ∧
    (summarize (fun _ => .error "boom") (fun _ => .ok "s")
      (some "https://youtu.be/dQw4w9WgXcQ")).resp.status = "error" :=
  summarize_transcript_error_500 (fun _ => .error "boom") (fun _ => .ok "s")
    "https://youtu.be/dQw4w9WgXcQ" "dQw4w9WgXcQ" "boom" (by decide) rfl (by decide)

/-- C4, counterexample to the unrestricted claim: when the model client
raises an exception whose string form is empty, the truthiness test
`if summary_error:` treats it as no error and the request ends in
200/success with a `None` summary instead of a 500 error. -/
theorem summarize_empty_summary_error_not_500 :
    (summarize (fun _ => .ok [⟨"hello"⟩]) (fun _ => .error "")
      (some "https://youtu.be/dQw4w9WgXcQ")).code = 200 ∧
    (summarize (fun _ => .ok [⟨"hello"⟩]) (fun _ => .error "")
      (some "https://youtu.be/dQw4w9WgXcQ")).resp =
      .success (some "hello") none := by
  constructor
  · decide
  · decide

/-- C4, amended: when the transcript fetch succeeds and the model client
raises an exception whose string form is non-empty, the response is HTTP
500 with `status` `error` and an error message that carries the upstream
failure text. -/
theorem summarize_summary_error_500 (fetch : String → Except String (List Entry))
    (gen : String → Except String String) (url vid e : String)
    (entries : List Entry)
    (h1 : extract_video_id url = some vid)
    (h2 : fetch vid = .ok entries)
    (h3 : gen (promptHeader ++ String.intercalate " " (entries.map Entry.text)) =
      .error e)
    (h4 : e ≠ "") :
    (summarize fetch gen (some url)).code = 500 ∧
    (summarize fetch gen (some url)).resp =
      .failure ("Error generating summary: " ++ e) ∧
    (summarize fetch gen (some url)).resp.status = "error" := by
  have htr : get_transcript fetch vid =
      (some (String.intercalate " " (entries.map Entry.text)), none) := by
    simp [get_transcript, h2]
  have hsm : generate_summary gen
      (some (String.intercalate " " (entries.map Entry.text))) = (none, some e) := by
    simp [generate_summary, pyStrOf, h3]
  have htruthy : truthy (some e) = true := by
    simp [truthy, bne_iff_ne, h4]
  simp [summarize, h1, htr, hsm, truthy, htruthy, h4, Resp.status, Option.getD]

/-- Witness for the amended C4 with a concrete raising model client. -/
theorem summarize_summary_error_500_witness :
    (summarize (fun _ => .ok [⟨"hello"⟩]) (fun _ => .error "quota")
      (some "https://youtu.be/dQw4w9WgXcQ")).code = 500 ∧
    (summarize (fun _ => .ok [⟨"hello"⟩]) (fun _ => .error "quota")
      (some "https://youtu.be/dQw4w9WgXcQ")).resp =
      .failure ("Error generating summary: " ++ "quota") ∧
    (summarize (fun _ => .ok [⟨"hello"⟩]) (fun _ => .error "quota")
      (some "https://youtu.be/dQw4w9WgXcQ")).resp.status = "error" :=
  summarize_summary_error_500 (fun _ => .ok [⟨"hello"⟩]) (fun _ => .error "quota")
    "https://youtu.be/dQw4w9WgXcQ" "dQw4w9WgXcQ" "quota" [⟨"hello"⟩]
    (by decide) rfl rfl (by decide)

/-- C5, counterexample to the non-emptiness part of the claim: a run in
which the URL parses, the transcript service succeeds (with an empty
caption list) and the model succeeds returns 200/success, but the
`transcript` field is the empty string. -/
theorem summarize_success_transcript_can_be_empty :
    (summarize (fun _ => .ok ([] : List Entry)) (fun _ => .ok "A summary.")
      (some "https://youtu.be/dQw4w9WgXcQ")).code = 200 ∧
    (summarize (fun _ => .ok ([] : List Entry)) (fun _ => .ok "A summary.")
      (some "https://youtu.be/dQw4w9WgXcQ")).resp =
      .success (some "") (some "A summary.") := by
  constructor
  · decide
  · decide

/-- C5, amended: when the URL parses, the transcript fetch succeeds and the
summariser succeeds, the response is HTTP 200 with `status` `success` and
`transcript` and `summary` fields equal to the joined captions and the
model text (so non-empty exactly when those upstream values are). -/
theorem summarize_success_200 (fetch : String → Except String (List Entry))
    (gen : String → Except String String) (url vid s : String)
    (entries : List Entry)
    (h1 : extract_video_id url = some vid)
    (h2 : fetch vid = .ok entries)
    (h3 : gen (promptHeader ++ String.intercalate " " (entries.map Entry.text)) =
      .ok s) :
    (summarize fetch gen (some url)).code = 200 ∧
    (summarize fetch gen (some url)).resp =
      .success (some (String.intercalate " " (entries.map Entry.text))) (some s) ∧
    (summarize fetch gen (some url)).resp.status = "success" := by
  have htr : get_transcript fetch vid =
      (some (String.intercalate " " (entries.map Entry.text)), none) := by
    simp [get_transcript, h2]
  have hsm : generate_summary gen
      (some (String.intercalate " " (entries.map Entry.text))) = (some s, none) := by
    simp [generate_summary, pyStrOf, h3]
  simp [summarize, h1, htr, hsm, truthy, Resp.status]

/-- Witness for the amended C5 with concrete successful services. -/
theorem summarize_success_200_witness :
    (summarize (fun _ => .ok [⟨"hello"⟩, ⟨"world"⟩]) (fun _ => .ok "A summary.")
      (some "https://youtu.be/dQw4w9WgXcQ")).code = 200 ∧
    (summarize (fun _ => .ok [⟨"hello"⟩, ⟨"world"⟩]) (fun _ => .ok "A summary.")
      (some "https://youtu.be/dQw4w9WgXcQ")).resp =
      .success
        (some (String.intercalate " "
          (([⟨"hello"⟩, ⟨"world"⟩] : List Entry).map Entry.text)))
        (some "A summary.") ∧
    (summarize (fun _ => .ok [⟨"hello"⟩, ⟨"world"⟩]) (fun _ => .ok "A summary.")
      (some "https://youtu.be/dQw4w9WgXcQ")).resp.status = "success" :=
  summarize_success_200 (fun _ => .ok [⟨"hello"⟩, ⟨"world"⟩])
    (fun _ => .ok "A summary.") "https://youtu.be/dQw4w9WgXcQ" "dQw4w9WgXcQ"
    "A summary." [⟨"hello"⟩, ⟨"world"⟩] (by decide) rfl rfl

/-- C8, counterexample to the guard part of the claim: with a transcript
client that raises an exception whose string form is empty, the fetch step
reports an error (the error slot is `some ""`), yet the generative model is
still invoked afterwards. -/
theorem summarize_gen_invoked_after_empty_fetch_error :
    (get_transcript (fun _ => .error "") "dQw4w9WgXcQ").2 = some "" ∧
    Ev.genEv (promptHeader ++ "None") ∈
      (summarize (fun _ => .error "") (fun _ => .ok "A summary.")
        (some "https://youtu.be/dQw4w9WgXcQ")).events := by
  constructor
  · rfl
  · decide

/-- C8, amended: the pipeline steps run in the fixed order parse id, fetch
transcript, summarise, each at most once per request; the fetcher never
runs when parsing yielded no id, and the summariser never runs when the
transcript fetch reported a non-empty error (an empty error string is
treated as no error by the truthiness test of the source). -/
theorem summarize_step_order (fetch : String → Except String (List Entry))
    (gen : String → Except String String) (videoUrl : Option String) :
    ((summarize fetch gen videoUrl).events = [] ∧ videoUrl = none) ∨
    (∃ url, videoUrl = some url ∧
      ((extract_video_id url = none ∧
          (summarize fetch gen videoUrl).events = [Ev.parseEv url]) ∨
       (∃ vid, extract_video_id url = some vid ∧
         ((truthy (get_transcript fetch vid).2 = true ∧
             (summarize fetch gen videoUrl).events =
               [Ev.parseEv url, Ev.fetchEv vid]) ∨
          (truthy (get_transcript fetch vid).2 = false ∧
             (summarize fetch gen videoUrl).events =
               [Ev.parseEv url, Ev.fetchEv vid,
                Ev.genEv (promptHeader ++ pyStrOf (get_transcript fetch vid).1)]))))) := by
  cases videoUrl with
  | none =>
    left
    exact ⟨rfl, rfl⟩
  | some url =>
    right
    refine ⟨url, rfl, ?_⟩
    cases hx : extract_video_id url with
    | none =>
      left
      exact ⟨rfl, by simp [summarize, hx]⟩
    | some vid =>
      right
      refine ⟨vid, rfl, ?_⟩
      cases ht : truthy (get_transcript fetch vid).2 with
      | true =>
        left
        refine ⟨rfl, ?_⟩
        simp [summarize, hx, ht]
      | false =>
        right
        refine ⟨rfl, ?_⟩
        simp only [summarize, hx, ht]
        cases hs : truthy (generate_summary gen (get_transcript fetch vid).1).2 <;>
          simp [hs]

/-- C9: every response body the handler can produce carries a `status`
field equal to `success` or `error`, and it is `success` exactly when the
HTTP status code is 200. -/
theorem summarize_status_field_invariant (fetch : String → Except String (List Entry))
    (gen : String → Except String String) (videoUrl : Option String) :
    ((summarize fetch gen videoUrl).resp.status = "success" ∨
      (summarize fetch gen videoUrl).resp.status = "error") ∧
    ((summarize fetch gen videoUrl).resp.status = "success" ↔
      (summarize fetch gen videoUrl).code = 200) := by
  cases videoUrl with
  | none => simp [summarize, Resp.status]
  | some url =>
    cases hx : extract_video_id url with
    | none => simp [summarize, hx, Resp.status]
    | some vid =>
      cases ht : truthy (get_transcript fetch vid).2 with
      | true => simp [summarize, hx, ht, Resp.status]
      | false =>
        cases hs : truthy (generate_summary gen (get_transcript fetch vid).1).2 with
        | true => simp [summarize, hx, ht, hs, Resp.status]
        | false => simp [summarize, hx, ht, hs, Resp.status]

/-- C10: a request whose JSON body lacks the `videoUrl` key hands `None` to
`extract_video_id`, whose `re.search` raises a `TypeError`; the catch-all
branch turns that into HTTP 500 with `status` `error` — not the 400
invalid-URL response — and no pipeline step completes. -/
theorem summarize_missing_videoUrl_500 (fetch : String → Except String (List Entry))
    (gen : String → Except String String) :
    (summarize fetch gen none).code = 500 ∧
    (summarize fetch gen none).resp.status = "error" ∧
    (summarize fetch gen none).resp = .failure typeErrorMsg ∧
    (summarize fetch gen none).resp ≠ .failure "Invalid YouTube URL" ∧
    (summarize fetch gen none).code ≠ 400 := by
  refine ⟨rfl, rfl, rfl, ?_, ?_⟩
  · intro hc
    simp [summarize, typeErrorMsg] at hc
  · intro hc
    simp [summarize] at hc

end YTSummary
